import Mathlib

/-!
Verification of the destination-resolution engine and the readiness
orchestrator of `wakeandwait` (src/wakeandwait.py), via a shallow
embedding: the pure token classifiers become Lean functions, the
stateful `parse_dests` loop becomes an explicit state-passing step
function driven by fuel, and the probe/retry machinery of `Service`,
`Command` and the wait phase of `waitandwake` becomes state passing
over an abstract stream of probe outcomes.
-/

/-- Default port used when a host token is finalised without an explicit
port (`DEFAULT_PORT = 22` in the source). -/
def DEFAULT_PORT : Nat := 22

/-- One character of the regex class `[0-9a-fA-F]` used by `is_mac`. -/
def isHexChar (c : Char) : Bool :=
  (Char.ofNat 48 ≤ c && c ≤ Char.ofNat 57) ||
  (Char.ofNat 97 ≤ c && c ≤ Char.ofNat 102) ||
  (Char.ofNat 65 ≤ c && c ≤ Char.ofNat 70)

/-- One character of the regex class `[:-]` used by `is_mac`. -/
def isSepChar (c : Char) : Bool := c = Char.ofNat 58 || c = Char.ofNat 45

/-- Recogniser for `([0-9a-fA-F]\x7b2\x7d[:-]?)\x7bk\x7d[0-9a-fA-F]\x7b2\x7d`
anchored at the front of the character list, trailing characters ignored
(Python's `re.match` only anchors the start).  The boolean `||` mirrors the
regex engine's backtracking over the optional separator: a match exists
exactly when one of the two branches matches. -/
def macMatch : Nat → List Char → Bool
  | 0, a :: b :: _ => isHexChar a && isHexChar b
  | 0, _ => false
  | k + 1, a :: b :: rest =>
      isHexChar a && isHexChar b &&
        (match rest with
         | c :: rest2 => (isSepChar c && macMatch k rest2) || macMatch k rest
         | [] => macMatch k [])
  | _ + 1, _ => false

/-- `is_mac` from the source: `re.match` of five hex pairs with optional
single `:` or `-` separators followed by a sixth hex pair, as a prefix
match on the argument. -/
def is_mac (arg : String) : Bool := macMatch 5 arg.data

/-- Value of Python's `int` on a string of decimal digits. -/
def digitsVal (cs : List Char) : Nat :=
  cs.foldl (fun n c => 10 * n + (c.toNat - 48)) 0

/-- `is_port` from the source: the token must be non-empty and all decimal
digits (`str.isdigit`), and its value must satisfy `0 < port <= 0xFFFF`;
otherwise `none`. -/
def is_port (arg : String) : Option Nat :=
  if arg.data ≠ [] ∧ arg.data.all Char.isDigit then
    if 0 < digitsVal arg.data ∧ digitsVal arg.data ≤ 65535 then
      some (digitsVal arg.data)
    else none
  else none

/-- The `OneConfig` TypedDict of the source: wake targets, readiness
checks and commands. -/
structure OneConfig where
  wake : List String
  check : List (String × Nat)
  run : List String
deriving Repr, DecidableEq

/-- A value of the loaded configuration mapping: a Mapping (terminal
destination set), a string (possibly the name of another entry), or any
other TOML value (never a Mapping and never equal to a key). -/
inductive ConfigValue where
  | table (cfg : OneConfig)
  | str (s : String)
  | other
deriving Repr, DecidableEq

/-- Test for `arg.startswith("!")`: the first character is `!`. -/
def startsWithBang (arg : String) : Bool :=
  match arg.data with
  | c :: _ => c = Char.ofNat 33
  | [] => false

/-- `arg[1:]`: the token with its first character removed. -/
def dropFirstChar (arg : String) : String := String.mk (arg.data.drop 1)

/-- Dictionary lookup on the configuration, modelled as first match in an
association list (Python dict keys are unique). -/
def cfgLookup : List (String × ConfigValue) → String → Option ConfigValue
  | [], _ => none
  | (k, v) :: rest, key => if key = k then some v else cfgLookup rest key

/-- The local state of the `parse_dests` loop: the accumulators `macs`,
`services`, `commands`, the host/port window `old_host`/`host`/`port`,
the remaining argument list (front = next to be popped), and the alias
names reported through `logger.error`. -/
structure ParseState where
  macs : List String
  old_host : Option String
  host : Option String
  port : Option Nat
  services : List (String × Nat)
  commands : List String
  args : List String
  errors : List String
deriving Repr, DecidableEq

/-- One iteration of the `while args:` loop of `parse_dests`, applied to
the popped token `arg`; `st.args` holds the not-yet-popped tokens and
receives the alias pushed back by an indirection hop. -/
def parseStep (config : List (String × ConfigValue)) (arg : String)
    (st : ParseState) : ParseState :=
  match cfgLookup config arg with
  | some (ConfigValue.table v) =>
      { st with macs := st.macs ++ v.wake, services := st.services ++ v.check }
  | some (ConfigValue.str v) =>
      if (cfgLookup config v).isSome then { st with args := v :: st.args }
      else { st with errors := st.errors ++ [arg] }
  | some ConfigValue.other => { st with errors := st.errors ++ [arg] }
  | none =>
      if is_mac arg then { st with macs := st.macs ++ [arg] }
      else
        match is_port arg with
        | some p =>
            { st with
                port := some p,
                services :=
                  match st.host with
                  | some h => st.services ++ [(h, p)]
                  | none => st.services }
        | none =>
            if startsWithBang arg then
              { st with commands := st.commands ++ [dropFirstChar arg] }
            else
              match st.port, st.host with
              | some p, _ =>
                  { st with old_host := st.host, host := some arg,
                            services := st.services ++ [(arg, p)] }
              | none, some oh =>
                  { st with old_host := st.host, host := some arg,
                            services := st.services ++ [(oh, DEFAULT_PORT)] }
              | none, none =>
                  { st with old_host := st.host, host := some arg }

/-- The `while args:` loop of `parse_dests`, with explicit fuel: `none`
means the fuel was exhausted before the argument list emptied (the
source loop would still be running). -/
def parseLoop (config : List (String × ConfigValue)) :
    Nat → ParseState → Option ParseState
  | 0, st => match st.args with | [] => some st | _ :: _ => none
  | fuel + 1, st =>
      match st.args with
      | [] => some st
      | arg :: rest => parseLoop config fuel (parseStep config arg { st with args := rest })

/-- The initial state of `parse_dests`: empty accumulators, no host/port
window, the destination tokens in left-to-right order. -/
def initState (dests : List String) : ParseState :=
  { macs := [], old_host := none, host := none, port := none,
    services := [], commands := [], args := dests, errors := [] }

/-- `parse_dests` from the source: run the loop and package the
accumulators as a `OneConfig`, paired with the recorded resolution
errors; `none` when the loop does not finish within `fuel` iterations. -/
def parse_dests (fuel : Nat) (dests : List String)
    (config : List (String × ConfigValue)) : Option (OneConfig × List String) :=
  (parseLoop config fuel (initState dests)).map fun st =>
    ({ wake := st.macs, check := st.services, run := st.commands }, st.errors)

/-- Outcome of one readiness-probe attempt: the `try` body of
`Service.check1` either captures a decoded banner (connection succeeded,
`recv` read and decoded with replacement) or raises an `OSError`,
modelled by its message. -/
inductive ProbeOutcome where
  | success (banner : String)
  | failure (err : String)
deriving Repr, DecidableEq

/-- The mutable fields of the `Service` class that the claims speak
about: host, port, `ok`, `answer`, `error`, `tries` (the wall-clock
fields `start`/`duration` and the display widget are not modelled). -/
structure Service where
  host : String
  port : Nat
  ok : Bool
  answer : Option String
  error : Option String
  tries : Nat
deriving Repr, DecidableEq

/-- `Service.__init__`: `ok` is false, `answer` and `error` are `None`,
`tries` is 0. -/
def Service.init (host : String) (port : Nat) : Service :=
  { host := host, port := port, ok := false, answer := none,
    error := none, tries := 0 }

/-- `Service.check1` driven by the outcome of this attempt's connection:
`tries` is incremented first; on success `update_status(True, msg=answer)`
sets `ok`, stores the banner and clears the error; on `OSError`
`update_status(False, error=e)` clears the answer and stores the error. -/
def Service.check1 (o : ProbeOutcome) (s : Service) : Service :=
  let s1 := { s with tries := s.tries + 1 }
  match o with
  | ProbeOutcome.success banner =>
      { s1 with ok := true, answer := some banner, error := none }
  | ProbeOutcome.failure e =>
      { s1 with ok := false, answer := none, error := some e }

/-- `Service.wait`: `while not self.check1(): sleep(1)`, driven by the
stream of per-attempt outcomes (`probes k` is attempt number `k`,
0-based) with explicit fuel; `none` means the loop is still retrying
after `fuel` attempts (the fixed 1-second sleep between attempts is not
modelled as time). -/
def Service.wait : Nat → (Nat → ProbeOutcome) → Service → Option Service
  | 0, _, _ => none
  | fuel + 1, probes, s =>
      let s1 := Service.check1 (probes s.tries) s
      if s1.ok then some s1 else Service.wait fuel probes s1

/-- Outcome of one `subprocess.run` call in `Command.check1`: the child
could not be started (`OSError`), or it ran to completion with a return
code and captured stdout/stderr (`check=True` raises
`CalledProcessError` when the code is non-zero). -/
inductive RunOutcome where
  | launchFailure (e : String)
  | completed (returncode : Int) (stdout : String) (stderr : String)
deriving Repr, DecidableEq

/-- The recorded failure cause of a command attempt: the `OSError` of a
process that could not be started, or the `CalledProcessError` of a
process that exited non-zero (carrying return code, stdout and stderr). -/
inductive CmdError where
  | osError (e : String)
  | calledProcessError (returncode : Int) (stdout : String) (stderr : String)
deriving Repr, DecidableEq

/-- The mutable fields of the `Command` class that the claims speak
about (inherits from `Service`; host/port are unused placeholders and
not modelled). -/
structure Command where
  command : List String
  ok : Bool
  answer : Option String
  error : Option CmdError
  tries : Nat
deriving Repr, DecidableEq

/-- `Command.__init__`: `ok` false, `answer`/`error` `None`, `tries` 0,
the command line already split into words (`shlex.split`). -/
def Command.init (command : List String) : Command :=
  { command := command, ok := false, answer := none, error := none, tries := 0 }

/-- `Command.check1` driven by the outcome of this attempt's
`subprocess.run`: `tries` is incremented first; exit code zero stores
stdout as the answer and sets `ok`; `OSError` and `CalledProcessError`
clear the answer and store the corresponding cause. -/
def Command.check1 (o : RunOutcome) (s : Command) : Command :=
  let s1 := { s with tries := s.tries + 1 }
  match o with
  | RunOutcome.launchFailure e =>
      { s1 with ok := false, answer := none, error := some (CmdError.osError e) }
  | RunOutcome.completed rc out err =>
      if rc = 0 then { s1 with ok := true, answer := some out, error := none }
      else
        { s1 with ok := false, answer := none,
                  error := some (CmdError.calledProcessError rc out err) }

/-- `concurrent.futures.wait(futures)` with no timeout: it returns only
once every future has completed, and then the `not_done` component (the
source binds it as `failed`) holds the futures still unfinished at that
moment.  A worker that never finishes (`none`) keeps the barrier
blocked, modelled as `none`. -/
def futuresWait (results : List (Option Service)) :
    Option (List Service × List (Option Service)) :=
  if results.all Option.isSome then
    some (results.filterMap id, results.filter fun r => r.isNone)
  else none

/-- The wait phase of `waitandwake`: submit `service.wait` for every
service, block on `wait(futures)`, and take the `sys.exit(1)` branch
(modelled as `Except.error 1`) exactly when the returned `failed` set is
non-empty. -/
def waitandwakeWaitPhase (fuel : Nat)
    (units : List (Service × (Nat → ProbeOutcome))) :
    Option (Except Nat (List Service)) :=
  (futuresWait (units.map fun u => Service.wait fuel u.2 u.1)).map fun df =>
    if df.2.isEmpty then Except.ok df.1 else Except.error 1

/-- A probe stream that succeeds on every attempt. -/
def probeAlwaysUp : Nat → ProbeOutcome := fun _ => ProbeOutcome.success "ok"

/-- A probe stream that fails on attempts 0 and 1 and succeeds from
attempt 2 on. -/
def probeThirdTime : Nat → ProbeOutcome := fun k =>
  match k with
  | 0 => ProbeOutcome.failure "connection refused"
  | 1 => ProbeOutcome.failure "connection refused"
  | _ => ProbeOutcome.success "SSH-2.0-OpenSSH"

/-- The alias table of claim C8: `a` maps to the name `b`, `b` maps to a
terminal destination set whose wake list is one hardware address. -/
def chainConfig : List (String × ConfigValue) :=
  [("a", ConfigValue.str "b"),
   ("b", ConfigValue.table { wake := ["AA:BB:CC:DD:EE:FF"], check := [], run := [] })]

/-- C8: resolving the alias chain a -> b -> a terminal destination set
with the single token "a" follows the indirection hop by hop and merges
the terminal definition: the wake targets are exactly the one hardware
address, with no checks, commands or resolution errors. -/
theorem c8_alias_chain_resolution :
    parse_dests 10 ["a"] chainConfig =
      some ({ wake := ["AA:BB:CC:DD:EE:FF"], check := [], run := [] }, []) := by
  decide

/-- C2 counterexample: resolving ["host1", "22", "host2"] against an
empty alias table does NOT yield exactly [("host1", 22)] — the claimed
drop of the final host token does not happen here. -/
theorem c2_counterexample :
    ¬ (parse_dests 10 ["host1", "22", "host2"] []).map (fun r => r.1.check)
        = some [("host1", 22)] := by
  decide

/-- C2 amended: resolving ["host1", "22", "host2"] against an empty
alias table yields the readiness checks [("host1", 22), ("host2", 22)]:
the pending port 22 is never cleared, so the final host token "host2" is
immediately paired with it instead of being dropped. -/
theorem c2_amended_pending_port :
    parse_dests 10 ["host1", "22", "host2"] [] =
      some ({ wake := [], check := [("host1", 22), ("host2", 22)], run := [] }, []) := by
  decide

/-- The cyclic alias table of claim C1: `a` maps to `b` and `b` maps to
`a`. -/
def cyclicConfig : List (String × ConfigValue) :=
  [("a", ConfigValue.str "b"), ("b", ConfigValue.str "a")]

/-- Starting from token list ["a"] (or ["b"]) under the cyclic table,
the `parse_dests` loop never finishes: each indirection hop pushes the
other name back, and the loop state returns to itself every two
iterations. -/
lemma cyclic_loop_never_halts :
    ∀ n, parseLoop cyclicConfig n (initState ["a"]) = none ∧
         parseLoop cyclicConfig n (initState ["b"]) = none := by
  intro n
  induction n with
  | zero => exact ⟨rfl, rfl⟩
  | succ n ih =>
      have ha : parseStep cyclicConfig "a" { initState ["a"] with args := [] } =
          initState ["b"] := by decide
      have hb : parseStep cyclicConfig "b" { initState ["b"] with args := [] } =
          initState ["a"] := by decide
      constructor
      · calc parseLoop cyclicConfig (n + 1) (initState ["a"])
            = parseLoop cyclicConfig n
                (parseStep cyclicConfig "a" { initState ["a"] with args := [] }) := rfl
          _ = parseLoop cyclicConfig n (initState ["b"]) := by rw [ha]
          _ = none := ih.2
      · calc parseLoop cyclicConfig (n + 1) (initState ["b"])
            = parseLoop cyclicConfig n
                (parseStep cyclicConfig "b" { initState ["b"] with args := [] }) := rfl
          _ = parseLoop cyclicConfig n (initState ["a"]) := by rw [hb]
          _ = none := ih.1
      
/-- C1: on the cyclic alias table a -> b -> a with the token "a",
`parse_dests` never terminates — no amount of fuel makes the loop reach
the end of the argument list, so no resolution error is ever reported
(the source loops forever rather than rejecting the cycle). -/
theorem c1_cyclic_alias_nonterminating :
    ∀ fuel, parse_dests fuel ["a"] cyclicConfig = none := by
  intro fuel
  unfold parse_dests
  rw [(cyclic_loop_never_halts fuel).1]
  rfl

/-- C4: `is_port` returns an integer exactly when the token is non-empty,
all decimal digits, and its value lies in 0 < value <= 65535; in
particular it rejects "0", "65536", "abc" and "", and accepts "65535". -/
theorem c4_is_port_characterisation :
    (∀ (s : String) (n : Nat),
        is_port s = some n ↔
          s.data ≠ [] ∧ s.data.all Char.isDigit = true ∧
            n = digitsVal s.data ∧ 0 < n ∧ n ≤ 65535) ∧
    is_port "0" = none ∧ is_port "65536" = none ∧ is_port "abc" = none ∧
    is_port "" = none ∧ is_port "65535" = some 65535 := by
  refine ⟨?_, by decide, by decide, by decide, by decide, by decide⟩
  intro s n
  unfold is_port
  split_ifs with h1 h2
  · simp only [Option.some.injEq]
    constructor
    · rintro rfl
      exact ⟨h1.1, h1.2, rfl, h2.1, h2.2⟩
    · rintro ⟨-, -, rfl, -, -⟩
      rfl
  · constructor
    · intro h
      exact h.elim
    · rintro ⟨-, -, rfl, hpos, hle⟩
      exact absurd ⟨hpos, hle⟩ h2
  · constructor
    · intro h
      exact h.elim
    · rintro ⟨hne, hdg, -, -, -⟩
      exact absurd ⟨hne, hdg⟩ h1

/-- The class of strings described by claim C5, as character lists:
`GroupsFrom k t` holds when `t` begins with `k + 1` groups of two
hexadecimal digits, with an optional single `:` or `-` separator after
each of the first `k` groups, followed by arbitrary trailing
characters. -/
def GroupsFrom : Nat → List Char → Prop
  | 0, t => ∃ a b r, isHexChar a = true ∧ isHexChar b = true ∧ t = a :: b :: r
  | k + 1, t => ∃ a b s r, isHexChar a = true ∧ isHexChar b = true ∧
      (s = [] ∨ s = [Char.ofNat 58] ∨ s = [Char.ofNat 45]) ∧
      GroupsFrom k r ∧ t = a :: b :: (s ++ r)

/-- A list with a group structure is non-empty. -/
lemma groupsFrom_cons : ∀ (k : Nat) (t : List Char), GroupsFrom k t →
    ∃ c r, t = c :: r := by
  intro k t h
  cases k with
  | zero =>
      obtain ⟨a, b, r, -, -, rfl⟩ := h
      exact ⟨a, b :: r, rfl⟩
  | succ k =>
      obtain ⟨a, b, s, r, -, -, -, -, rfl⟩ := h
      exact ⟨a, b :: (s ++ r), rfl⟩

/-- The recogniser accepts every list with the group structure. -/
lemma macMatch_of_groupsFrom : ∀ (k : Nat) (t : List Char),
    GroupsFrom k t → macMatch k t = true := by
  intro k
  induction k with
  | zero =>
      intro t h
      obtain ⟨a, b, r, ha, hb, rfl⟩ := h
      simp [macMatch, ha, hb]
  | succ k ih =>
      intro t h
      obtain ⟨a, b, s, r, ha, hb, hs, hr, rfl⟩ := h
      rcases hs with rfl | rfl | rfl
      · obtain ⟨c, r2, rfl⟩ := groupsFrom_cons k r hr
        simp [macMatch, ha, hb, ih _ hr]
      · simp [macMatch, ha, hb, isSepChar, ih _ hr]
      · simp [macMatch, ha, hb, isSepChar, ih _ hr]

/-- C5: `is_mac` returns true for every string beginning with six groups
of two hexadecimal digits with optional single `:` or `-` separators
between groups — whatever follows the match — in particular for the
three sample spellings, and returns false for "not-a-mac". -/
theorem c5_is_mac_permissive :
    (∀ s : String, GroupsFrom 5 s.data → is_mac s = true) ∧
    is_mac "AA:BB:CC:DD:EE:FF" = true ∧
    is_mac "aabbccddeeff" = true ∧
    is_mac "AA-BB-CC-DD-EE-FF" = true ∧
    is_mac "not-a-mac" = false := by
  refine ⟨?_, by decide, by decide, by decide, by decide⟩
  intro s h
  exact macMatch_of_groupsFrom 5 s.data h

/-- Witness for C5 at a concrete input with mixed separators and
trailing garbage. -/
theorem c5_witness : is_mac "AA:bbCCdd-EE:ff tail" = true := by
  apply c5_is_mac_permissive.1
  show GroupsFrom 5 ("AA:bbCCdd-EE:ff tail".data)
  refine ⟨'A', 'A', [Char.ofNat 58], "bbCCdd-EE:ff tail".data,
    by decide, by decide, Or.inr (Or.inl rfl), ?_, by decide⟩
  refine ⟨'b', 'b', [], "CCdd-EE:ff tail".data,
    by decide, by decide, Or.inl rfl, ?_, by decide⟩
  refine ⟨'C', 'C', [], "dd-EE:ff tail".data,
    by decide, by decide, Or.inl rfl, ?_, by decide⟩
  refine ⟨'d', 'd', [Char.ofNat 45], "EE:ff tail".data,
    by decide, by decide, Or.inr (Or.inr rfl), ?_, by decide⟩
  refine ⟨'E', 'E', [Char.ofNat 58], "ff tail".data,
    by decide, by decide, Or.inr (Or.inl rfl), ?_, by decide⟩
  exact ⟨'f', 'f', " tail".data, by decide, by decide, by decide⟩

/-- C6: for a probe that fails on its first two attempts and succeeds on
the third, `Service.wait` terminates with `tries = 3`, `ok = true` and
`answer` equal to the banner captured on the third attempt. -/
theorem c6_two_failures_then_success
    (p : Nat → ProbeOutcome) (host : String) (port : Nat) (fuel : Nat)
    (e0 e1 banner : String)
    (h0 : p 0 = ProbeOutcome.failure e0) (h1 : p 1 = ProbeOutcome.failure e1)
    (h2 : p 2 = ProbeOutcome.success banner) :
    Service.wait (fuel + 3) p (Service.init host port) =
      some { host := host, port := port, ok := true, answer := some banner,
             error := none, tries := 3 } := by
  show Service.wait ((fuel + 2) + 1) p (Service.init host port) = _
  rw [Service.wait]
  simp only [Service.init, Service.check1, h0]
  show Service.wait ((fuel + 1) + 1) p _ = _
  rw [Service.wait]
  simp only [Service.check1, h1]
  show Service.wait (fuel + 1) p _ = _
  rw [Service.wait]
  simp only [Service.check1, h2]
  rfl

/-- Witness for C6: the concrete fail-fail-succeed probe stream. -/
theorem c6_witness :
    Service.wait 3 probeThirdTime (Service.init "h" 22) =
      some { host := "h", port := 22, ok := true,
             answer := some "SSH-2.0-OpenSSH", error := none, tries := 3 } :=
  c6_two_failures_then_success probeThirdTime "h" 22 0 "connection refused"
    "connection refused" "SSH-2.0-OpenSSH" rfl rfl rfl

/-- C7: one `Command.check1` attempt reports success with the captured
stdout exactly when the child exits with code zero; otherwise the
recorded cause distinguishes a launch failure (`OSError`) from a
non-zero exit (`CalledProcessError` carrying the return code, stdout and
stderr); and the attempt increments `tries` by exactly one, never
retrying internally. -/
theorem c7_command_check1_classification :
    ∀ (o : RunOutcome) (s : Command),
      ((Command.check1 o s).ok = true ↔
        ∃ out err, o = RunOutcome.completed 0 out err) ∧
      (∀ out err, o = RunOutcome.completed 0 out err →
          (Command.check1 o s).answer = some out) ∧
      (∀ rc out err, o = RunOutcome.completed rc out err → rc ≠ 0 →
          (Command.check1 o s).error =
            some (CmdError.calledProcessError rc out err)) ∧
      (∀ e, o = RunOutcome.launchFailure e →
          (Command.check1 o s).error = some (CmdError.osError e)) ∧
      (Command.check1 o s).tries = s.tries + 1 := by
  intro o s
  cases o with
  | launchFailure e =>
      refine ⟨by simp [Command.check1], by simp, by simp, ?_, rfl⟩
      intro e2 he
      cases he
      rfl
  | completed rc out err =>
      by_cases h : rc = 0
      · subst h
        refine ⟨by simp [Command.check1], ?_, ?_, by simp, by simp [Command.check1]⟩
        · intro out2 err2 he
          cases he
          rfl
        · intro rc2 out2 err2 he hne
          cases he
          exact absurd rfl hne
      · refine ⟨by simp [Command.check1, h], by simp [h], ?_, by simp,
          by simp [Command.check1, h]⟩
        intro rc2 out2 err2 he hne
        cases he
        simp [Command.check1, h]

/-- Witness for C7: a process that exits with code 2. -/
theorem c7_witness :
    (Command.check1 (RunOutcome.completed 2 "o" "e") (Command.init ["false"])).error =
      some (CmdError.calledProcessError 2 "o" "e") :=
  (c7_command_check1_classification (RunOutcome.completed 2 "o" "e")
      (Command.init ["false"])).2.2.1 2 "o" "e" rfl (by decide)

/-- `Service.wait` only ever returns a state whose last probe attempt
succeeded: the loop `while not self.check1(): sleep(1)` exits only on
success. -/
lemma wait_some_ok : ∀ (fuel : Nat) (p : Nat → ProbeOutcome) (s s2 : Service),
    Service.wait fuel p s = some s2 → s2.ok = true := by
  intro fuel
  induction fuel with
  | zero =>
      intro p s s2 h
      exact Option.noConfusion h
  | succ fuel ih =>
      intro p s s2 h
      simp only [Service.wait] at h
      split at h
      next hok =>
        cases h
        exact hok
      next => exact ih p _ s2 h

/-- `Service.wait` retries unboundedly: on a probe stream with no
successful attempt it never returns, whatever the fuel. -/
lemma wait_none_of_no_success :
    ∀ (fuel : Nat) (p : Nat → ProbeOutcome) (s : Service),
      (∀ k b, p k ≠ ProbeOutcome.success b) → Service.wait fuel p s = none := by
  intro fuel
  induction fuel with
  | zero =>
      intro p s _
      rfl
  | succ fuel ih =>
      intro p s h
      cases hp : p s.tries with
      | success b => exact absurd hp (h s.tries b)
      | failure e =>
          simp only [Service.wait, hp, Service.check1]
          exact ih p _ h

/-- A list of futures that are all complete has no incomplete member. -/
lemma filter_isNone_nil_of_all_isSome :
    ∀ (l : List (Option Service)), l.all Option.isSome = true →
      l.filter (fun r => r.isNone) = [] := by
  intro l h
  induction l with
  | nil => rfl
  | cons a t ih =>
      rw [List.all_cons, Bool.and_eq_true] at h
      cases a with
      | none => exact absurd h.1 (by simp)
      | some x =>
          simpa using ih h.2

/-- When the barrier returns, the `failed` (not-done) component is empty
and every collected result was some worker's returned state. -/
lemma futuresWait_some :
    ∀ (l : List (Option Service)) (df : List Service × List (Option Service)),
      futuresWait l = some df → df.2 = [] ∧ ∀ s ∈ df.1, some s ∈ l := by
  intro l df h
  unfold futuresWait at h
  by_cases hall : l.all Option.isSome = true
  · rw [if_pos hall] at h
    injection h with h
    subst h
    refine ⟨filter_isNone_nil_of_all_isSome l hall, ?_⟩
    intro s hs
    rw [List.mem_filterMap] at hs
    obtain ⟨o, ho, hid⟩ := hs
    have ho2 : o = some s := hid
    exact ho2 ▸ ho
  · rw [if_neg hall] at h
    exact Option.noConfusion h

/-- C3: a worker's retry loop exits only on success and never gives up
on a stream with no successful attempt, and whenever the wait-phase
barrier returns, the failed/not-done set is empty, so the
`sys.exit(1)` branch is never taken: the phase result is `Except.ok`
with every collected service succeeded. -/
theorem c3_wait_phase_failure_branch_unreachable :
    (∀ (fuel : Nat) (p : Nat → ProbeOutcome) (s s2 : Service),
        Service.wait fuel p s = some s2 → s2.ok = true) ∧
    (∀ (fuel : Nat) (p : Nat → ProbeOutcome) (s : Service),
        (∀ k b, p k ≠ ProbeOutcome.success b) → Service.wait fuel p s = none) ∧
    (∀ (fuel : Nat) (units : List (Service × (Nat → ProbeOutcome)))
        (r : Except Nat (List Service)),
        waitandwakeWaitPhase fuel units = some r →
          ∃ done, r = Except.ok done ∧ ∀ s ∈ done, s.ok = true) := by
  refine ⟨wait_some_ok, wait_none_of_no_success, ?_⟩
  intro fuel units r h
  unfold waitandwakeWaitPhase at h
  rw [Option.map_eq_some'] at h
  obtain ⟨df, hfw, hgr⟩ := h
  obtain ⟨hfail, hmem⟩ := futuresWait_some _ df hfw
  simp only [hfail, List.isEmpty_nil, if_true] at hgr
  subst hgr
  refine ⟨df.1, rfl, ?_⟩
  intro s hs
  have hsome := hmem s hs
  rw [List.mem_map] at hsome
  obtain ⟨u, hu, hwu⟩ := hsome
  exact wait_some_ok fuel u.2 u.1 s hwu

/-- The state returned by a worker whose first probe succeeds with
banner "ok". -/
def okService : Service :=
  { host := "h", port := 1, ok := true, answer := some "ok",
    error := none, tries := 1 }

/-- Witness for C3 at a concrete single-service wait phase. -/
theorem c3_witness :
    ∃ done, (Except.ok [okService] : Except Nat (List Service)) = Except.ok done ∧
      ∀ s ∈ done, s.ok = true :=
  c3_wait_phase_failure_branch_unreachable.2.2 1
    [(Service.init "h" 1, probeAlwaysUp)] (Except.ok [okService]) rfl

/-- C9: a token naming an alias whose value is malformed — neither a
Mapping (terminal destination set) nor a string that is itself a key of
the table — only records a resolution error for that token and is
skipped: the loop continues on the remaining tokens from an otherwise
unchanged state, so the malformed entry never aborts resolution. -/
theorem c9_malformed_alias_skipped
    (config : List (String × ConfigValue)) (arg : String) (st : ParseState)
    (fuel : Nat)
    (h : cfgLookup config arg = some ConfigValue.other ∨
         ∃ v, cfgLookup config arg = some (ConfigValue.str v) ∧
           cfgLookup config v = none) :
    parseLoop config (fuel + 1) { st with args := arg :: st.args } =
      parseLoop config fuel { st with errors := st.errors ++ [arg] } := by
  have hstep : parseStep config arg st = { st with errors := st.errors ++ [arg] } := by
    rcases h with h | ⟨v, hv, hnone⟩
    · unfold parseStep
      rw [h]
    · simp [parseStep, hv, hnone]
  calc parseLoop config (fuel + 1) { st with args := arg :: st.args }
      = parseLoop config fuel (parseStep config arg st) := rfl
    _ = parseLoop config fuel { st with errors := st.errors ++ [arg] } := by rw [hstep]

/-- A one-entry table whose only value is malformed (not a Mapping, not
a key). -/
def malformedConfig : List (String × ConfigValue) := [("x", ConfigValue.other)]

/-- Witness for C9: the malformed entry "x" is skipped with an error
recorded and resolution continues on the remaining token. -/
theorem c9_witness :
    parseLoop malformedConfig 2
        { initState ["h1"] with args := "x" :: (initState ["h1"]).args } =
      parseLoop malformedConfig 1
        { initState ["h1"] with errors := (initState ["h1"]).errors ++ ["x"] } :=
  c9_malformed_alias_skipped malformedConfig "x" (initState ["h1"]) 1 (Or.inl rfl)

/-- A token that reaches the bare-host branch of `parse_dests`: not a
key of the table, not a hardware address, not a valid port, and not a
`!`-prefixed command. -/
def bareHostToken (config : List (String × ConfigValue)) (arg : String) : Prop :=
  cfgLookup config arg = none ∧ is_mac arg = false ∧ is_port arg = none ∧
    startsWithBang arg = false

/-- One `parse_dests` iteration never clears the pending port. -/
lemma parseStep_port_isSome
    (config : List (String × ConfigValue)) (arg : String) (st : ParseState)
    (h : st.port.isSome = true) : (parseStep config arg st).port.isSome = true := by
  unfold parseStep
  repeat' split
  all_goals first | exact h | rfl

/-- Across any number of loop iterations the pending port stays set. -/
lemma parseLoop_port_isSome :
    ∀ (fuel : Nat) (config : List (String × ConfigValue)) (st st2 : ParseState),
      parseLoop config fuel st = some st2 → st.port.isSome = true →
        st2.port.isSome = true := by
  intro fuel
  induction fuel with
  | zero =>
      intro config st st2 h hport
      unfold parseLoop at h
      cases hargs : st.args with
      | nil =>
          rw [hargs] at h
          injection h with h
          subst h
          exact hport
      | cons a t =>
          rw [hargs] at h
          exact Option.noConfusion h
  | succ fuel ih =>
      intro config st st2 h hport
      unfold parseLoop at h
      cases hargs : st.args with
      | nil =>
          rw [hargs] at h
          injection h with h
          subst h
          exact hport
      | cons arg rest =>
          rw [hargs] at h
          exact ih config _ st2 h (parseStep_port_isSome config arg _ hport)

/-- C10: the pending-port state of `parse_dests` is never cleared once
set — every iteration preserves it, a port token overwrites it with the
new value, a bare-host token arriving while a port is pending is
immediately emitted with that most recent port, the default-port
fallback `(previousHost, DEFAULT_PORT)` fires only while no port is
pending, and the whole loop preserves a set pending port to its final
state. -/
theorem c10_pending_port_persistence :
    (∀ (config : List (String × ConfigValue)) (arg : String) (st : ParseState),
        st.port.isSome = true → (parseStep config arg st).port.isSome = true) ∧
    (∀ (config : List (String × ConfigValue)) (arg : String) (st : ParseState)
        (p : Nat), cfgLookup config arg = none → is_mac arg = false →
        is_port arg = some p → (parseStep config arg st).port = some p) ∧
    (∀ (config : List (String × ConfigValue)) (arg : String) (st : ParseState)
        (p : Nat), bareHostToken config arg → st.port = some p →
        (parseStep config arg st).services = st.services ++ [(arg, p)]) ∧
    (∀ (config : List (String × ConfigValue)) (arg : String) (st : ParseState)
        (oh : String), bareHostToken config arg → st.port = none →
        st.host = some oh →
        (parseStep config arg st).services = st.services ++ [(oh, DEFAULT_PORT)]) ∧
    (∀ (fuel : Nat) (config : List (String × ConfigValue)) (st st2 : ParseState),
        parseLoop config fuel st = some st2 → st.port.isSome = true →
          st2.port.isSome = true) := by
  refine ⟨parseStep_port_isSome, ?_, ?_, ?_, parseLoop_port_isSome⟩
  · intro config arg st p hl hm hp
    simp [parseStep, hl, hm, hp]
  · intro config arg st p hbare hq
    obtain ⟨hl, hm, hp, hb⟩ := hbare
    simp [parseStep, hl, hm, hp, hb, hq]
  · intro config arg st oh hbare hq hh
    obtain ⟨hl, hm, hp, hb⟩ := hbare
    simp [parseStep, hl, hm, hp, hb, hq, hh]

/-- A loop state in which the port 22 is already pending and "host1" is
the current host. -/
def pendingPortState : ParseState :=
  { initState [] with port := some 22, host := some "host1", services := [("host1", 22)] }

/-- Witness for C10: after the port 22 is pending, the bare host token
"host2" is immediately emitted with it. -/
theorem c10_witness :
    (parseStep [] "host2" pendingPortState).services =
      pendingPortState.services ++ [("host2", 22)] :=
  c10_pending_port_persistence.2.2.1 [] "host2" pendingPortState 22
    ⟨rfl, by decide, by decide, by decide⟩ rfl
